import Mathlib

/-!
Verification of the ssh-speedometer firmware (`src/ssh-speedometer.ino`,
revision 2.0).  The development shallowly embeds the speed-measurement
engine (`measureSpeed`), the sensor-polling gate (`pollSensors`), the
button decoder (`pollButtons`) with its four action handlers, and the
history-average helper (`getAverage`).  Machine floats are modelled as
exact rationals; the Arduino clocks `millis`/`micros` are modelled as
natural-number timestamps supplied by the environment; analog readings
are integer-valued functions of time.  Busy-wait loops are modelled by
structurally recursive functions: the measurement wait carries enough
fuel to cover its `MAX_MEASURE_TIME` ceiling, while the unbounded
wait-until-clear loop takes its fuel as a parameter, `false`/`none`
meaning the loop is still running when the fuel runs out.
-/

namespace Speedometer

/-- `REFRESH_TIME` from the source (milliseconds). -/
def REFRESH_TIME : ℕ := 300

/-- `DEBOUNCE_TIME` from the source (milliseconds). -/
def DEBOUNCE_TIME : ℕ := 30

/-- `DISPLAY_WAIT_TIME` from the source (milliseconds). -/
def DISPLAY_WAIT_TIME : ℕ := 1500

/-- `BUTTON_HOLD_TIME` from the source (milliseconds). -/
def BUTTON_HOLD_TIME : ℕ := 500

/-- `MAX_MEASURE_TIME` from the source (microseconds). -/
def MAX_MEASURE_TIME : ℕ := 1500000

/-- `MIN_SPEED` from the source (m/s). -/
def MIN_SPEED : ℚ := 0

/-- `MAX_SPEED` from the source (m/s). -/
def MAX_SPEED : ℚ := 50

/-- `HISTORY_SIZE` from the source. -/
def HISTORY_SIZE : ℤ := 100

/-- `LEFT_SENSOR` pin number: Arduino analog pin `A0`, numeric value 14. -/
def LEFT_SENSOR : ℕ := 14

/-- `RIGHT_SENSOR` pin number: Arduino analog pin `A6`, numeric value 20. -/
def RIGHT_SENSOR : ℕ := 20

/-- System state `STATE_DEFAULT`. -/
def STATE_DEFAULT : ℕ := 0

/-- System state `STATE_HISTORY`. -/
def STATE_HISTORY : ℕ := 1

/-- System state `STATE_HISTORY_MENU`. -/
def STATE_HISTORY_MENU : ℕ := 2

/-- System state `STATE_SETTINGS`. -/
def STATE_SETTINGS : ℕ := 3

/-- System state `STATE_REPLACE`. -/
def STATE_REPLACE : ℕ := 4

/-- System state `STATE_REPLACE_QUESTION`. -/
def STATE_REPLACE_QUESTION : ℕ := 5

/-- System state `STATE_REMOVE`. -/
def STATE_REMOVE : ℕ := 6

/-- System state `STATE_LEFT_SENSOR_ERROR`. -/
def STATE_LEFT_SENSOR_ERROR : ℕ := 7

/-- System state `STATE_RIGHT_SENSOR_ERROR`. -/
def STATE_RIGHT_SENSOR_ERROR : ℕ := 8

/-- System state `STATE_BOTH_SENSORS_ERROR`. -/
def STATE_BOTH_SENSORS_ERROR : ℕ := 9

/-- Button state `NO_BUTTON_PRESSED`. -/
def NO_BUTTON_PRESSED : ℕ := 0

/-- Button state `LEFT_BUTTON_PRESSED`. -/
def LEFT_BUTTON_PRESSED : ℕ := 1

/-- Button state `RIGHT_BUTTON_PRESSED`. -/
def RIGHT_BUTTON_PRESSED : ℕ := 2

/-- Button state `BOTH_BUTTONS_PRESSED`. -/
def BOTH_BUTTONS_PRESSED : ℕ := 3

/-- History-menu substate `HISTORY_REPLACE`. -/
def HISTORY_REPLACE : ℕ := 1

/-- History-menu substate `HISTORY_REMOVE`. -/
def HISTORY_REMOVE : ℕ := 2

/-- History-menu substate `HISTORY_REMOVE_ALL`. -/
def HISTORY_REMOVE_ALL : ℕ := 3

/-- A sensor / button side, the values `LEFT = 0`, `RIGHT = 1`. -/
inductive Channel
  | left
  | right
deriving DecidableEq

/-- The channel scanned first at loop index `index` of `measureSpeed`:
the source array `(int[2]){ LEFT_SENSOR, RIGHT_SENSOR }[index]`. -/
def scanChannel (index : ℕ) : Channel :=
  if index = 0 then Channel.left else Channel.right

/-- The opposite channel at loop index `index` of `measureSpeed`:
the source array `(int[2]){ RIGHT_SENSOR, LEFT_SENSOR }[index]`. -/
def otherChannel (index : ℕ) : Channel :=
  if index = 0 then Channel.right else Channel.left

/-- The pin-number array `(int[2]){ RIGHT_SENSOR, LEFT_SENSOR }[index]`
which the source compares against `state` when selecting an error state. -/
def otherSensorPin (index : ℕ) : ℕ :=
  if index = 0 then RIGHT_SENSOR else LEFT_SENSOR

/-- The error-state array
`(int[2]){ STATE_LEFT_SENSOR_ERROR, STATE_RIGHT_SENSOR_ERROR }[index]`. -/
def errorStateFor (index : ℕ) : ℕ :=
  if index = 0 then STATE_LEFT_SENSOR_ERROR else STATE_RIGHT_SENSOR_ERROR

/-- External inputs of one `measureSpeed` call: the threshold and
calibrated distance read from the potentiometers at entry, the analog
reading of each sensor channel as a function of the `micros` clock, and
the (hardware-dependent, positive) number of microseconds one busy-wait
iteration consumes. -/
structure SensorEnv where
  threshold : ℤ
  sensorDistance : ℤ
  read : Channel → ℕ → ℤ
  dt : ℕ

/-- Outcome of the bounded busy-wait
`while ( micros() - sensorTime < MAX_MEASURE_TIME )`:
either the other sensor read below the threshold at iteration `k`
(`hit k`), or the time ceiling was reached at iteration `k`
(`timeout k`).  Iteration `k` happens at clock time `t0 + k * dt`. -/
inductive WaitOutcome
  | hit (k : ℕ)
  | timeout (k : ℕ)
deriving DecidableEq

/-- The bounded busy-wait of `measureSpeed`: starting at time `t0`,
poll `read` every `dt` microseconds while less than `MAX_MEASURE_TIME`
has elapsed, stopping early when a reading drops below `th`.  The fuel
argument only needs to cover the ceiling (`MAX_MEASURE_TIME + 1`
iterations always suffice when `dt ≥ 1`). -/
def timedWait (read : ℕ → ℤ) (th : ℤ) (t0 dt : ℕ) : ℕ → ℕ → WaitOutcome
  | 0, k => WaitOutcome.timeout k
  | fuel + 1, k =>
    if k * dt < MAX_MEASURE_TIME then
      if read (t0 + k * dt) < th then WaitOutcome.hit k
      else timedWait read th t0 dt fuel (k + 1)
    else WaitOutcome.timeout k

/-- The unbounded busy-wait
`while ( analogRead( ... ) < threshold );` that waits for the second
sensor to clear after a successful measurement.  `true` means the loop
exited within `fuel` polls; `false` means the sensor was still below the
threshold after `fuel` polls, i.e. the loop is still spinning. -/
def clearWait (read : ℕ → ℤ) (th : ℤ) (t dt : ℕ) : ℕ → Bool
  | 0 => false
  | fuel + 1 =>
    if read t < th then clearWait read th (t + dt) dt fuel else true

/-- The float expression
`( sensorDistance * ( 1000000.0f / sensorTime ) ) / 1000.0f`
returned by `measureSpeed`, over exact rationals. -/
def speedOf (sensorDistance : ℤ) (elapsed : ℕ) : ℚ :=
  ((sensorDistance : ℚ) * (1000000 / (elapsed : ℚ))) / 1000

/-- Result of one loop index of `measureSpeed`: `ret v` when the body
executed a `return` (`v = none` when the wait-until-clear loop ran out
of fuel, i.e. the call is still blocked), or `cont st t sensorTime` when
control falls through to the next index with system state `st`, clock
`t` and the local `sensorTime` variable. -/
inductive IterOut
  | ret (v : Option ℚ)
  | cont (st : ℕ) (t : ℕ) (sensorTime : ℤ)
deriving DecidableEq

/-- One iteration (`index` = 0 or 1) of the `for` loop of
`measureSpeed`, starting in system state `st` at clock time `t0` with
the current value of the local `sensorTime`. -/
def measureIter (env : SensorEnv) (index : ℕ) (st : ℕ) (t0 : ℕ)
    (sensorTime : ℤ) (fuel : ℕ) : IterOut :=
  if env.read (scanChannel index) t0 < env.threshold then
    match timedWait (env.read (otherChannel index)) env.threshold t0 env.dt
        (MAX_MEASURE_TIME + 1) 0 with
    | WaitOutcome.hit k =>
      if clearWait (env.read (otherChannel index)) env.threshold
          (t0 + k * env.dt) env.dt fuel then
        IterOut.ret (some (speedOf env.sensorDistance (k * env.dt)))
      else
        IterOut.ret none
    | WaitOutcome.timeout k =>
      let t1 := t0 + k * env.dt
      if env.read (scanChannel index) t1 < env.threshold then
        if st = otherSensorPin index then
          IterOut.cont STATE_BOTH_SENSORS_ERROR t1 (-1)
        else
          IterOut.cont (errorStateFor index) t1 (-1)
      else
        IterOut.cont st t1 (t0 : ℤ)
  else
    if st = errorStateFor index then
      IterOut.cont STATE_DEFAULT t0 sensorTime
    else
      IterOut.cont st t0 sensorTime

/-- Result of a whole `measureSpeed` call: the returned float
(`none` when the call is still blocked in the wait-until-clear loop),
the system state after the call, and whether the trailing
`if ( sensorTime > 0 )` displayed the "unclear reading." message. -/
structure MeasureOut where
  ret : Option ℚ
  state : ℕ
  unclear : Bool
deriving DecidableEq

/-- `measureSpeed` of the source: run the two loop indices in order;
a `return` inside an index ends the call with the state reached so far,
otherwise the call returns `-1.0f` and reports "unclear reading." when
the final `sensorTime` is positive. -/
def measureSpeed (env : SensorEnv) (startT : ℕ) (st : ℕ) (fuel : ℕ) :
    MeasureOut :=
  match measureIter env 0 st startT (-1) fuel with
  | IterOut.ret v => MeasureOut.mk v st false
  | IterOut.cont st1 t1 stime1 =>
    match measureIter env 1 st1 t1 stime1 fuel with
    | IterOut.ret v => MeasureOut.mk v st1 false
    | IterOut.cont st2 _ stime2 =>
      MeasureOut.mk (some (-1)) st2 (decide (0 < stime2))

/-- `LinkedList<float>::get`: bounds-checked element access returning
the default value `0` outside the list (the Arduino `LinkedList`
library returns `T()` for an invalid index). -/
def historyGet (l : List ℚ) (i : ℤ) : ℚ :=
  if 0 ≤ i ∧ i < (l.length : ℤ) then l.getD i.toNat 0 else 0

/-- `LinkedList<float>::set`: bounds-checked in-place update; an invalid
index leaves the list unchanged. -/
def historySet (l : List ℚ) (i : ℤ) (v : ℚ) : List ℚ :=
  if 0 ≤ i ∧ i < (l.length : ℤ) then l.set i.toNat v else l

/-- `LinkedList<float>::remove`: bounds-checked removal; an invalid
index leaves the list unchanged. -/
def removeIdx (l : List ℚ) (i : ℤ) : List ℚ :=
  if 0 ≤ i ∧ i < (l.length : ℤ) then l.eraseIdx i.toNat else l

/-- `LinkedList<float>::add(index, v)`: insert at a valid position,
append when the index is at or past the end. -/
def addIdx (l : List ℚ) (i : ℤ) (v : ℚ) : List ℚ :=
  if 0 ≤ i ∧ i < (l.length : ℤ) then l.insertIdx i.toNat v else l ++ [v]

/-- The global mutable variables of the sketch: the device state and
substate, the history buffer with its two cursors, and the button
decoder's bookkeeping (`buttonLastState[2]`, `buttonState`,
`buttonDebounceTime[2]`, `buttonHoldTime`). -/
structure Mach where
  state : ℕ
  subState : ℕ
  writeIndex : ℤ
  readIndex : ℤ
  history : List ℚ
  lastL : Bool
  lastR : Bool
  buttonState : ℕ
  debounceL : ℕ
  debounceR : ℕ
  buttonHoldTime : ℕ
deriving DecidableEq

/-- The variables at power-up. -/
def initMach : Mach :=
  Mach.mk STATE_DEFAULT 0 (-1) (-1) [] false false NO_BUTTON_PRESSED 0 0 0

/-- `clearHistory` of the source: drop every entry and reset the write
cursor to `-1`. -/
def clearHistory (m : Mach) : Mach :=
  { m with history := [], writeIndex := -1 }

/-- `rightButtonPressed` of the source: the short-press action of the
right button, dispatched on the current state. -/
def rightButtonPressed (m : Mach) : Mach :=
  let m := { m with buttonState := NO_BUTTON_PRESSED }
  if m.state = STATE_SETTINGS then
    if m.subState < 3 then { m with subState := m.subState + 1 } else m
  else if m.state = STATE_HISTORY then
    if 0 < m.history.length then
      if m.readIndex < (m.history.length : ℤ) - 1 then
        { m with readIndex := m.readIndex + 1 }
      else
        { m with readIndex := 0 }
    else m
  else if m.state = STATE_HISTORY_MENU then
    if m.subState < 5 then { m with subState := m.subState + 1 } else m
  else if m.state = STATE_REPLACE then m
  else if m.state = STATE_REPLACE_QUESTION then
    { m with history := removeIdx m.history m.readIndex,
             state := STATE_HISTORY }
  else if m.state = STATE_REMOVE then
    { m with state := STATE_HISTORY }
  else
    { m with state := STATE_SETTINGS }

/-- `leftButtonPressed` of the source: the short-press action of the
left button, dispatched on the current state. -/
def leftButtonPressed (m : Mach) : Mach :=
  let m := { m with buttonState := NO_BUTTON_PRESSED }
  if m.state = STATE_SETTINGS ∨ m.state = STATE_HISTORY_MENU then
    if 0 < m.subState then { m with subState := m.subState - 1 } else m
  else if m.state = STATE_HISTORY then
    if 0 < m.readIndex then
      { m with readIndex := m.readIndex - 1 }
    else
      { m with readIndex := (m.history.length : ℤ) - 1 }
  else if m.state = STATE_REPLACE then m
  else if m.state = STATE_REPLACE_QUESTION then
    { m with history := removeIdx m.history (m.readIndex + 1),
             state := STATE_HISTORY }
  else if m.state = STATE_REMOVE then
    if 0 ≤ m.readIndex then
      let m1 := { m with history := removeIdx m.history m.readIndex }
      let m2 :=
        if m1.readIndex = (m1.history.length : ℤ) then
          { m1 with readIndex := m1.readIndex - 1 }
        else m1
      { m2 with state := STATE_HISTORY }
    else
      { clearHistory m with state := STATE_HISTORY }
  else
    { m with state := STATE_HISTORY }

/-- `bothButtonsPressed` of the source: the `switch` sends
`STATE_HISTORY_MENU` and `STATE_REPLACE` to `STATE_HISTORY` and every
other state to `STATE_DEFAULT`; the assignment that follows the
`switch` then re-examines the *updated* state, so the net effect is
always `STATE_DEFAULT`.  Both steps are kept so the definition mirrors
the source. -/
def bothButtonsPressed (m : Mach) : Mach :=
  let st1 :=
    if m.state = STATE_HISTORY_MENU ∨ m.state = STATE_REPLACE then
      STATE_HISTORY
    else STATE_DEFAULT
  let st2 := if st1 = STATE_HISTORY_MENU then STATE_HISTORY else STATE_DEFAULT
  { m with state := st2, subState := 0, buttonState := NO_BUTTON_PRESSED }

/-- `rightButtonHold` of the source: the hold action of the right
button inside the history menu, dispatched on the substate. -/
def rightButtonHold (m : Mach) : Mach :=
  if m.subState = HISTORY_REPLACE then { m with state := STATE_REPLACE }
  else if m.subState = HISTORY_REMOVE then { m with state := STATE_REMOVE }
  else if m.subState = HISTORY_REMOVE_ALL then
    { m with readIndex := -1, state := STATE_REMOVE }
  else { m with state := STATE_HISTORY }

/-- The gate at the head of `pollSensors`: measurements run only in
`STATE_DEFAULT`, the three sensor-error states, and `STATE_REPLACE`. -/
def pollGate (st : ℕ) : Bool :=
  st = STATE_DEFAULT ∨ st = STATE_LEFT_SENSOR_ERROR ∨
    st = STATE_RIGHT_SENSOR_ERROR ∨ st = STATE_BOTH_SENSORS_ERROR ∨
    st = STATE_REPLACE

/-- `pollSensors` of the source, parametrised by the value returned by
`measureSpeed` and by the system state it left behind (the engine
mutates the global `state` before `pollSensors` continues). -/
def pollSensors (s : Mach) (speed : ℚ) (mstate : ℕ) : Mach :=
  if pollGate s.state then
    let s1 := { s with state := mstate }
    if MIN_SPEED < speed ∧ speed < MAX_SPEED then
      if s1.state = STATE_REPLACE then
        { s1 with history := addIdx s1.history s1.readIndex speed,
                  state := STATE_REPLACE_QUESTION }
      else
        let wi : ℤ :=
          if s1.writeIndex < HISTORY_SIZE - 1 then s1.writeIndex + 1 else 0
        let ri : ℤ := if s1.readIndex < 0 then 0 else s1.readIndex
        let s2 := { s1 with writeIndex := wi, readIndex := ri }
        if historyGet s2.history wi ≠ 0 then
          { s2 with history := historySet s2.history wi speed }
        else
          { s2 with history := s2.history ++ [speed] }
    else s1
  else s

/-- Semantic events of the button decoder: which handler a
`pollButtons` step invoked. -/
inductive BEvent
  | shortLeft
  | shortRight
  | bothReleased
  | holdMenu
  | holdRight
deriving DecidableEq

/-- First statement of the `pollButtons` loop body: when the raw read
of the button at `index` differs from `buttonLastState[index]`, reset
that button's debounce timer to `millis()`. -/
def debouncePhase (now : ℕ) (readL readR : Bool) (index : ℕ) (m : Mach) :
    Mach :=
  let readI := if index = 0 then readL else readR
  let lastI := if index = 0 then m.lastL else m.lastR
  if readI ≠ lastI then
    if index = 0 then { m with debounceL := now }
    else { m with debounceR := now }
  else m

/-- Second statement of the loop body: once
`millis() - buttonHoldTime > BUTTON_HOLD_TIME`, run the hold action
(open the history menu on a both-press hold, or `rightButtonHold` on a
right-press hold inside the menu) and clear `buttonState`. -/
def holdPhase (now : ℕ) (m : Mach) : Mach × List BEvent :=
  if BUTTON_HOLD_TIME < now - m.buttonHoldTime then
    if m.buttonState = BOTH_BUTTONS_PRESSED ∧ m.state = STATE_HISTORY ∧
        0 ≤ m.readIndex then
      ({ m with state := STATE_HISTORY_MENU,
                buttonState := NO_BUTTON_PRESSED }, [BEvent.holdMenu])
    else if m.buttonState = RIGHT_BUTTON_PRESSED ∧
        m.state = STATE_HISTORY_MENU then
      ({ rightButtonHold m with buttonState := NO_BUTTON_PRESSED },
        [BEvent.holdRight])
    else
      ({ m with buttonState := NO_BUTTON_PRESSED }, [])
  else (m, [])

/-- Third statement of the loop body: when the debounce timer of the
button at `index` has settled
(`millis() - buttonDebounceTime[index] > DEBOUNCE_TIME`), flip
`buttonLastState[index]` and run the press / release state logic of the
source. -/
def settlePhase (now : ℕ) (readL readR : Bool) (index : ℕ) (m : Mach) :
    Mach × List BEvent :=
  let dbI := if index = 0 then m.debounceL else m.debounceR
  if DEBOUNCE_TIME < now - dbI then
    let m :=
      if index = 0 then { m with lastL := !m.lastL }
      else { m with lastR := !m.lastR }
    if readR = true ∧ readL = true then
      ({ m with buttonHoldTime := now,
                buttonState := BOTH_BUTTONS_PRESSED }, [])
    else if m.buttonState = BOTH_BUTTONS_PRESSED then
      (bothButtonsPressed m, [BEvent.bothReleased])
    else if index = 0 ∧ readL = true then
      ({ m with buttonHoldTime := now,
                buttonState := LEFT_BUTTON_PRESSED }, [])
    else if index = 0 ∧ readL = false ∧
        m.buttonState = LEFT_BUTTON_PRESSED then
      (leftButtonPressed m, [BEvent.shortLeft])
    else if index = 1 ∧ readR = true then
      ({ m with buttonHoldTime := now,
                buttonState := RIGHT_BUTTON_PRESSED }, [])
    else if index = 1 ∧ readR = false ∧
        m.buttonState = RIGHT_BUTTON_PRESSED then
      (rightButtonPressed m, [BEvent.shortRight])
    else (m, [])
  else (m, [])

/-- One iteration (`index` = 0 or 1) of the `for` loop of
`pollButtons`, given the clock `now` (`millis()`) and the raw reads of
both buttons; returns the updated variables together with the handler
events the iteration fired. -/
def pollIndex (now : ℕ) (readL readR : Bool) (index : ℕ) (m : Mach) :
    Mach × List BEvent :=
  let p := holdPhase now (debouncePhase now readL readR index m)
  let q := settlePhase now readL readR index p.1
  (q.1, p.2 ++ q.2)

/-- `pollButtons` of the source: run the loop body for the left button
(index 0) and then the right button (index 1), collecting events. -/
def pollButtons (now : ℕ) (readL readR : Bool) (m : Mach) :
    Mach × List BEvent :=
  let p0 := pollIndex now readL readR 0 m
  let p1 := pollIndex now readL readR 1 p0.1
  (p1.1, p0.2 ++ p1.2)

/-- Run `pollButtons` over a list of control cycles, each given as
`(millis, left raw read, right raw read)`, collecting all events. -/
def runTrace (steps : List (ℕ × Bool × Bool)) (m : Mach) :
    Mach × List BEvent :=
  match steps with
  | [] => (m, [])
  | s :: rest =>
    let p := pollButtons s.1 s.2.1 s.2.2 m
    let q := runTrace rest p.1
    (q.1, p.2 ++ q.2)

/-- The running totals computed by the `for` loop of `getAverage`:
the sum of all history entries and the element count. -/
def getAverageTotals (history : List ℚ) : ℚ × ℕ :=
  history.foldl (fun acc v => (acc.1 + v, acc.2 + 1)) (0, 0)

/-- `getAverage` of the source: `total / count` over the history list.
The source divides the float `total` by `count` unconditionally; the
division is modelled as `Option`, `none` standing for the undefined
`0.0f / 0` the hardware evaluates when the history is empty. -/
def getAverage (history : List ℚ) : Option ℚ :=
  let p := getAverageTotals history
  if p.2 = 0 then none else some (p.1 / (p.2 : ℚ))

/-- `scanChannel` at loop index 0 is the left sensor. -/
theorem scanChannel_zero : scanChannel 0 = Channel.left := rfl

/-- `scanChannel` at loop index 1 is the right sensor. -/
theorem scanChannel_one : scanChannel 1 = Channel.right := rfl

/-- `otherChannel` at loop index 0 is the right sensor. -/
theorem otherChannel_zero : otherChannel 0 = Channel.right := rfl

/-- If the polled reading first drops below the threshold at iteration
`k`, and `k` is inside the time ceiling, the bounded busy-wait reports
`hit k` (provided enough fuel remains). -/
theorem timedWait_hit_aux (read : ℕ → ℤ) (th : ℤ) (t0 dt k : ℕ)
    (hhit : read (t0 + k * dt) < th)
    (hlt : k * dt < MAX_MEASURE_TIME) :
    ∀ fuel j, k - j < fuel → j ≤ k →
      (∀ i, j ≤ i → i < k → ¬ read (t0 + i * dt) < th) →
      timedWait read th t0 dt fuel j = WaitOutcome.hit k := by
  intro fuel
  induction fuel with
  | zero => intro j hj; omega
  | succ f ih =>
    intro j hfj hjk hmiss
    by_cases hj : j = k
    · subst hj
      simp only [timedWait]
      rw [if_pos hlt, if_pos hhit]
    · have hjk' : j < k := lt_of_le_of_ne hjk hj
      have hjdt : j * dt < MAX_MEASURE_TIME :=
        lt_of_le_of_lt (Nat.mul_le_mul_right dt (le_of_lt hjk')) hlt
      have hmj : ¬ read (t0 + j * dt) < th := hmiss j (le_refl j) hjk'
      simp only [timedWait]
      rw [if_pos hjdt, if_neg hmj]
      exact ih (j + 1) (by omega) hjk' (fun i h1 h2 => hmiss i (by omega) h2)

/-- The bounded busy-wait started with the standard fuel budget reports
`hit k` when the reading first drops below the threshold at iteration
`k`, strictly inside the ceiling. -/
theorem timedWait_hit (read : ℕ → ℤ) (th : ℤ) (t0 dt k : ℕ)
    (hmiss : ∀ i < k, ¬ read (t0 + i * dt) < th)
    (hhit : read (t0 + k * dt) < th)
    (hpos : 0 < k * dt)
    (hlt : k * dt < MAX_MEASURE_TIME) :
    timedWait read th t0 dt (MAX_MEASURE_TIME + 1) 0 = WaitOutcome.hit k := by
  have hdt : 0 < dt := by
    rcases Nat.eq_zero_or_pos dt with h | h
    · subst h; simp at hpos
    · exact h
  have hk : k ≤ k * dt := Nat.le_mul_of_pos_right k hdt
  exact timedWait_hit_aux read th t0 dt k hhit hlt (MAX_MEASURE_TIME + 1) 0
    (by omega) (Nat.zero_le k) (fun i _ h2 => hmiss i h2)

/-- If the polled reading never drops below the threshold, the bounded
busy-wait always terminates with a timeout. -/
theorem timedWait_never (read : ℕ → ℤ) (th : ℤ) (t0 dt : ℕ)
    (hmiss : ∀ t, ¬ read t < th) :
    ∀ fuel j, ∃ k, timedWait read th t0 dt fuel j = WaitOutcome.timeout k := by
  intro fuel
  induction fuel with
  | zero => intro j; exact ⟨j, rfl⟩
  | succ f ih =>
    intro j
    by_cases h : j * dt < MAX_MEASURE_TIME
    · obtain ⟨k, hk⟩ := ih (j + 1)
      refine ⟨k, ?_⟩
      simp only [timedWait]
      rw [if_pos h, if_neg (hmiss (t0 + j * dt))]
      exact hk
    · refine ⟨j, ?_⟩
      simp only [timedWait]
      rw [if_neg h]

/-- If the polled sensor stays below the threshold forever, the
wait-until-clear loop is still spinning after any amount of fuel. -/
theorem clearWait_stuck (read : ℕ → ℤ) (th : ℤ) (dt : ℕ)
    (hblocked : ∀ t, read t < th) :
    ∀ fuel t, clearWait read th t dt fuel = false := by
  intro fuel
  induction fuel with
  | zero => intro t; rfl
  | succ f ih =>
    intro t
    simp only [clearWait]
    rw [if_pos (hblocked t)]
    exact ih (t + dt)

/-- C1: when the left sensor triggers at entry and the right sensor
first reads below the threshold `k * dt` microseconds later (a positive
elapsed time strictly inside `MAX_MEASURE_TIME`), and the right sensor
later clears, `measureSpeed` returns
`sensorDistance * (1000000 / elapsed) / 1000` m/s. -/
theorem measureSpeed_speed_formula (env : SensorEnv) (startT st fuel k : ℕ)
    (hL : env.read Channel.left startT < env.threshold)
    (hmiss : ∀ i < k,
      ¬ env.read Channel.right (startT + i * env.dt) < env.threshold)
    (hR : env.read Channel.right (startT + k * env.dt) < env.threshold)
    (hpos : 0 < k * env.dt)
    (hlt : k * env.dt < MAX_MEASURE_TIME)
    (hclear : clearWait (env.read Channel.right) env.threshold
        (startT + k * env.dt) env.dt fuel = true) :
    (measureSpeed env startT st fuel).ret =
      some (((env.sensorDistance : ℚ) *
        (1000000 / ((k * env.dt : ℕ) : ℚ))) / 1000) := by
  have h0 : measureIter env 0 st startT (-1) fuel =
      IterOut.ret (some (speedOf env.sensorDistance (k * env.dt))) := by
    unfold measureIter
    rw [scanChannel_zero, otherChannel_zero, if_pos hL,
      timedWait_hit (env.read Channel.right) env.threshold startT env.dt k
        hmiss hR hpos hlt]
    dsimp only
    rw [if_pos hclear]
  unfold measureSpeed
  rw [h0]
  rfl

/-- A Prop stating that a `measureSpeed` call never returns: whatever
fuel the wait-until-clear loop is given, it is still spinning. -/
def measureSpeedHangs (env : SensorEnv) (startT st : ℕ) : Prop :=
  ∀ fuel, (measureSpeed env startT st fuel).ret = none

/-- Concrete inputs on which `measureSpeed` blocks forever: the left
sensor is triggered at entry and the right sensor reads below the
threshold at every instant, so the measurement succeeds immediately but
the wait-until-clear loop at the end of the success path never exits. -/
def envHang : SensorEnv :=
  SensorEnv.mk 500 300
    (fun c t => match c with
      | Channel.left => if t = 0 then 0 else 1000
      | Channel.right => 0)
    1

/-- C2 counterexample: with the right sensor permanently below the
threshold, `measureSpeed` never returns — the wait-until-clear busy-wait
(source lines 805-806) has no `MAX_MEASURE_TIME` ceiling. -/
theorem measureSpeed_can_hang : measureSpeedHangs envHang 0 STATE_DEFAULT := by
  intro fuel
  have hclear : clearWait (envHang.read Channel.right) envHang.threshold
      (0 + 0 * envHang.dt) envHang.dt fuel = false :=
    clearWait_stuck _ _ _ (fun t => by norm_num [envHang]) fuel _
  have h0 : measureIter envHang 0 STATE_DEFAULT 0 (-1) fuel =
      IterOut.ret none := by
    unfold measureIter
    rw [scanChannel_zero, otherChannel_zero]
    rw [if_pos (by norm_num [envHang])]
    rw [timedWait_hit_aux (envHang.read Channel.right) envHang.threshold 0
      envHang.dt 0 (by norm_num [envHang])
      (by norm_num [envHang, MAX_MEASURE_TIME]) (MAX_MEASURE_TIME + 1) 0
      (by norm_num) (le_refl 0) (fun i h1 h2 => absurd h2 (Nat.not_lt_zero i))]
    dsimp only
    rw [if_neg (by rw [hclear]; exact Bool.false_ne_true)]
  unfold measureSpeed
  rw [h0]

/-- At loop index 0, when the right sensor never reads below the
threshold, the body falls through (no `return` executes). -/
theorem measureIter_zero_cont (env : SensorEnv) (st t0 : ℕ) (stime : ℤ)
    (fuel : ℕ)
    (hR : ∀ t, ¬ env.read Channel.right t < env.threshold) :
    ∃ st' t' s', measureIter env 0 st t0 stime fuel =
      IterOut.cont st' t' s' := by
  unfold measureIter
  rw [scanChannel_zero, otherChannel_zero]
  by_cases hL : env.read Channel.left t0 < env.threshold
  · rw [if_pos hL]
    obtain ⟨k, hk⟩ := timedWait_never (env.read Channel.right) env.threshold
      t0 env.dt hR (MAX_MEASURE_TIME + 1) 0
    rw [hk]
    dsimp only
    by_cases hstuck : env.read Channel.left (t0 + k * env.dt) < env.threshold
    · rw [if_pos hstuck]
      by_cases hboth : st = otherSensorPin 0
      · rw [if_pos hboth]; exact ⟨_, _, _, rfl⟩
      · rw [if_neg hboth]; exact ⟨_, _, _, rfl⟩
    · rw [if_neg hstuck]; exact ⟨_, _, _, rfl⟩
  · rw [if_neg hL]
    by_cases herr : st = errorStateFor 0
    · rw [if_pos herr]; exact ⟨_, _, _, rfl⟩
    · rw [if_neg herr]; exact ⟨_, _, _, rfl⟩

/-- At loop index 1, when the right sensor never reads below the
threshold, the body falls through (no `return` executes). -/
theorem measureIter_one_cont (env : SensorEnv) (st t0 : ℕ) (stime : ℤ)
    (fuel : ℕ)
    (hR : ∀ t, ¬ env.read Channel.right t < env.threshold) :
    ∃ st' t' s', measureIter env 1 st t0 stime fuel =
      IterOut.cont st' t' s' := by
  unfold measureIter
  rw [scanChannel_one]
  rw [if_neg (hR t0)]
  by_cases herr : st = errorStateFor 1
  · rw [if_pos herr]; exact ⟨_, _, _, rfl⟩
  · rw [if_neg herr]; exact ⟨_, _, _, rfl⟩

/-- C2 amended: the timed busy-wait really is bounded — if the right
sensor never triggers, `measureSpeed` always terminates, returning the
error value `-1.0f`, for every inner-loop fuel budget. -/
theorem measureSpeed_timeout_terminates (env : SensorEnv)
    (startT st fuel : ℕ)
    (hR : ∀ t, ¬ env.read Channel.right t < env.threshold) :
    (measureSpeed env startT st fuel).ret = some (-1) := by
  obtain ⟨st1, t1, s1, h0⟩ :=
    measureIter_zero_cont env st startT (-1) fuel hR
  obtain ⟨st2, t2, s2, h1⟩ := measureIter_one_cont env st1 t1 s1 fuel hR
  unfold measureSpeed
  rw [h0]
  dsimp only
  rw [h1]

/-- Concrete inputs for the speed-formula witness: threshold 500,
calibrated distance 300 mm; the left sensor is triggered at time 0, the
right sensor first reads below the threshold at 100000 µs and clears at
200000 µs; each busy-wait iteration takes 100000 µs. -/
def envSpeed3 : SensorEnv :=
  SensorEnv.mk 500 300
    (fun c t => match c with
      | Channel.left => if t = 0 then 0 else 1000
      | Channel.right =>
        if t < 100000 then 1000 else if t < 200000 then 0 else 1000)
    100000

/-- Witness for the speed formula: an elapsed time of 100000 µs at
calibrated distance 300 mm yields exactly 3 m/s. -/
theorem measureSpeed_speed_formula_witness :
    (measureSpeed envSpeed3 0 STATE_DEFAULT 2).ret = some 3 := by
  have h := measureSpeed_speed_formula envSpeed3 0 STATE_DEFAULT 2 1
    (by decide) (by decide) (by decide) (by decide) (by decide) (by decide)
  rw [h]
  norm_num [envSpeed3]

/-- Concrete inputs for the timeout witness: the left sensor is
permanently blocked and the right sensor never triggers. -/
def envTimeout : SensorEnv :=
  SensorEnv.mk 500 300
    (fun c _ => match c with
      | Channel.left => 0
      | Channel.right => 1000)
    1500000

/-- Witness for the bounded-timeout theorem: with the right sensor
never triggering, `measureSpeed` returns the error value `-1.0f`. -/
theorem measureSpeed_timeout_terminates_witness :
    (measureSpeed envTimeout 0 STATE_DEFAULT 0).ret = some (-1) :=
  measureSpeed_timeout_terminates envTimeout 0 STATE_DEFAULT 0
    (fun t => by norm_num [envTimeout])

/-- C8: (a) when the left sensor stays below the threshold and the
right sensor never triggers, a `measureSpeed` call from `STATE_DEFAULT`
times out and leaves the system in `STATE_LEFT_SENSOR_ERROR`; (b) from
`STATE_LEFT_SENSOR_ERROR`, the first call that finds both sensors back
above the threshold returns the system to `STATE_DEFAULT`. -/
theorem measureSpeed_error_and_selfheal :
    (∀ (env : SensorEnv) (startT fuel : ℕ),
      (∀ t, env.read Channel.left t < env.threshold) →
      (∀ t, ¬ env.read Channel.right t < env.threshold) →
      (measureSpeed env startT STATE_DEFAULT fuel).state =
        STATE_LEFT_SENSOR_ERROR) ∧
    (∀ (env : SensorEnv) (startT fuel : ℕ),
      ¬ env.read Channel.left startT < env.threshold →
      ¬ env.read Channel.right startT < env.threshold →
      (measureSpeed env startT STATE_LEFT_SENSOR_ERROR fuel).state =
        STATE_DEFAULT) := by
  constructor
  · intro env startT fuel hL hR
    obtain ⟨k, hk⟩ := timedWait_never (env.read Channel.right) env.threshold
      startT env.dt hR (MAX_MEASURE_TIME + 1) 0
    have h0 : measureIter env 0 STATE_DEFAULT startT (-1) fuel =
        IterOut.cont STATE_LEFT_SENSOR_ERROR (startT + k * env.dt) (-1) := by
      unfold measureIter
      rw [scanChannel_zero, otherChannel_zero, if_pos (hL startT), hk]
      dsimp only
      rw [if_pos (hL (startT + k * env.dt))]
      rw [if_neg (by norm_num [STATE_DEFAULT, otherSensorPin, RIGHT_SENSOR])]
      rfl
    have h1 : measureIter env 1 STATE_LEFT_SENSOR_ERROR
        (startT + k * env.dt) (-1) fuel =
        IterOut.cont STATE_LEFT_SENSOR_ERROR (startT + k * env.dt) (-1) := by
      unfold measureIter
      rw [scanChannel_one, if_neg (hR (startT + k * env.dt))]
      rw [if_neg (by norm_num [STATE_LEFT_SENSOR_ERROR, errorStateFor,
        STATE_RIGHT_SENSOR_ERROR])]
    unfold measureSpeed
    rw [h0]
    dsimp only
    rw [h1]
  · intro env startT fuel hL hR
    have h0 : measureIter env 0 STATE_LEFT_SENSOR_ERROR startT (-1) fuel =
        IterOut.cont STATE_DEFAULT startT (-1) := by
      unfold measureIter
      rw [scanChannel_zero, if_neg hL]
      rw [if_pos (by norm_num [STATE_LEFT_SENSOR_ERROR, errorStateFor])]
    have h1 : measureIter env 1 STATE_DEFAULT startT (-1) fuel =
        IterOut.cont STATE_DEFAULT startT (-1) := by
      unfold measureIter
      rw [scanChannel_one, if_neg hR]
      rw [if_neg (by norm_num [STATE_DEFAULT, errorStateFor,
        STATE_RIGHT_SENSOR_ERROR])]
    unfold measureSpeed
    rw [h0]
    dsimp only
    rw [h1]

/-- Concrete inputs for the error-state witness: left permanently
blocked, right never triggering. -/
def envStuckLeft : SensorEnv :=
  SensorEnv.mk 500 300
    (fun c _ => match c with
      | Channel.left => 0
      | Channel.right => 1000)
    1500000

/-- Concrete inputs for the self-heal witness: both sensors clear. -/
def envAllClear : SensorEnv :=
  SensorEnv.mk 500 300 (fun _ _ => 1000) 1500000

/-- Witness for the error/self-heal theorem at concrete inputs. -/
theorem measureSpeed_error_and_selfheal_witness :
    (measureSpeed envStuckLeft 0 STATE_DEFAULT 0).state =
      STATE_LEFT_SENSOR_ERROR ∧
    (measureSpeed envAllClear 0 STATE_LEFT_SENSOR_ERROR 0).state =
      STATE_DEFAULT :=
  And.intro
    (measureSpeed_error_and_selfheal.1 envStuckLeft 0 0
      (fun t => by norm_num [envStuckLeft])
      (fun t => by norm_num [envStuckLeft]))
    (measureSpeed_error_and_selfheal.2 envAllClear 0 0
      (by decide) (by decide))

/-- Concrete inputs on which the specified both-sensors condition
holds: the left sensor is permanently blocked, and the right sensor is
above the threshold throughout the measurement window but reads below
the threshold exactly at the moment the error state is selected
(1500000 µs, with one 1500000 µs busy-wait iteration). -/
def envBothBlocked : SensorEnv :=
  SensorEnv.mk 500 300
    (fun c t => match c with
      | Channel.left => 0
      | Channel.right => if t = 1500000 then 0 else 1000)
    1500000

/-- C9: evaluating `measureSpeed` at inputs where the starting (left)
sensor is stuck at timeout and the other (right) channel is also
triggered at the moment of error-state selection: the code selects
`STATE_LEFT_SENSOR_ERROR`, not `STATE_BOTH_SENSORS_ERROR`, because the
guard compares `state` against the sensor pin number
`RIGHT_SENSOR = 20`, which no system state (0..9) ever equals. -/
theorem measureSpeed_both_error_unreachable :
    (measureSpeed envBothBlocked 0 STATE_DEFAULT 0).state =
      STATE_LEFT_SENSOR_ERROR ∧
    (measureSpeed envBothBlocked 0 STATE_DEFAULT 0).state ≠
      STATE_BOTH_SENSORS_ERROR := by
  constructor
  · decide
  · decide

/-- C10: on an empty history the loop of `getAverage` computes total 0
and count 0, so the returned expression is the undefined division
`0.0f / 0` (modelled `none`): there is no guard for an empty history. -/
theorem getAverage_empty_undefined :
    getAverage [] = none ∧ getAverageTotals [] = (0, 0) :=
  And.intro rfl rfl

/-- C3: an out-of-range measurement result (at or below `MIN_SPEED`, or
at or above `MAX_SPEED`) is silently discarded by `pollSensors`: the
history buffer and both cursors are unchanged, and the state is exactly
what `measureSpeed` left behind — `pollSensors` signals nothing. -/
theorem pollSensors_discards_out_of_range (s : Mach) (speed : ℚ)
    (mstate : ℕ) (hg : pollGate s.state = true)
    (h : speed ≤ MIN_SPEED ∨ MAX_SPEED ≤ speed) :
    (pollSensors s speed mstate).history = s.history ∧
    (pollSensors s speed mstate).writeIndex = s.writeIndex ∧
    (pollSensors s speed mstate).readIndex = s.readIndex ∧
    (pollSensors s speed mstate).state = mstate := by
  have hrange : ¬ (MIN_SPEED < speed ∧ speed < MAX_SPEED) := by
    rcases h with h | h
    · exact fun hc => absurd hc.1 (not_lt.mpr h)
    · exact fun hc => absurd hc.2 (not_lt.mpr h)
  unfold pollSensors
  rw [if_pos hg, if_neg hrange]
  exact ⟨rfl, rfl, rfl, rfl⟩

/-- Witness for the out-of-range discard at a concrete machine: a
60 m/s result (spurious re-trigger) leaves everything unchanged. -/
theorem pollSensors_discards_out_of_range_witness :
    (pollSensors initMach 60 STATE_DEFAULT).history = initMach.history ∧
    (pollSensors initMach 60 STATE_DEFAULT).writeIndex =
      initMach.writeIndex ∧
    (pollSensors initMach 60 STATE_DEFAULT).readIndex =
      initMach.readIndex ∧
    (pollSensors initMach 60 STATE_DEFAULT).state = STATE_DEFAULT :=
  pollSensors_discards_out_of_range initMach 60 STATE_DEFAULT rfl
    (Or.inr (by norm_num [MAX_SPEED]))

/-- A history machine sitting on the last entry (`readIndex = size-1`)
in `STATE_HISTORY`. -/
def histAtLast : Mach :=
  { initMach with state := STATE_HISTORY, history := [3], readIndex := 0 }

/-- A history machine on the `-1` "all measurements" sentinel in
`STATE_HISTORY`. -/
def histAtSentinel : Mach :=
  { initMach with state := STATE_HISTORY, history := [3, 4],
                  readIndex := -1 }

/-- C4: evaluating the handlers at the claimed inputs.  A left short
press at the sentinel does wrap to `size - 1`, but a right short press
at `readIndex = size - 1` sets `readIndex` to 0 (the first entry), not
to the `-1` sentinel the source comment and the spec describe. -/
theorem history_wrap_behaviour :
    (leftButtonPressed histAtSentinel).readIndex = 1 ∧
    (rightButtonPressed histAtLast).readIndex = 0 ∧
    (rightButtonPressed histAtLast).readIndex ≠ -1 := by
  refine ⟨by decide, by decide, by decide⟩

/-- C5: confirming a single delete in `STATE_REMOVE` with a valid
`readIndex`: the entry is removed, the state returns to
`STATE_HISTORY`, deleting the last entry decrements `readIndex` (to
`-1` when the buffer empties), deleting elsewhere leaves `readIndex`
unchanged, and `readIndex` stays in bounds. -/
theorem remove_confirm_adjusts_readIndex (m : Mach)
    (h1 : m.state = STATE_REMOVE) (h2 : 0 ≤ m.readIndex)
    (h3 : m.readIndex < (m.history.length : ℤ)) :
    (leftButtonPressed m).state = STATE_HISTORY ∧
    ((leftButtonPressed m).history.length : ℤ) =
      (m.history.length : ℤ) - 1 ∧
    (m.readIndex = (m.history.length : ℤ) - 1 →
      (leftButtonPressed m).readIndex = (m.history.length : ℤ) - 2) ∧
    (m.readIndex < (m.history.length : ℤ) - 1 →
      (leftButtonPressed m).readIndex = m.readIndex) ∧
    (-1 ≤ (leftButtonPressed m).readIndex ∧
      (leftButtonPressed m).readIndex <
        ((leftButtonPressed m).history.length : ℤ) ∨
      (leftButtonPressed m).history = [] ∧
      (leftButtonPressed m).readIndex = -1) := by
  have hlen : ((m.history.eraseIdx m.readIndex.toNat).length : ℤ) =
      (m.history.length : ℤ) - 1 := by
    have hb : m.readIndex.toNat < m.history.length := by omega
    have := List.length_eraseIdx_add_one hb
    omega
  have hrem : removeIdx m.history m.readIndex =
      m.history.eraseIdx m.readIndex.toNat := by
    unfold removeIdx
    rw [if_pos ⟨h2, h3⟩]
  unfold leftButtonPressed
  rw [h1]
  simp only [STATE_REMOVE, STATE_SETTINGS, STATE_HISTORY_MENU,
    STATE_HISTORY, STATE_REPLACE, STATE_REPLACE_QUESTION]
  norm_num
  rw [if_pos h2, hrem]
  by_cases hend : m.readIndex = ((m.history.eraseIdx m.readIndex.toNat).length : ℤ)
  · rw [if_pos hend]
    refine ⟨rfl, by simpa using hlen, ?_, ?_, ?_⟩
    · intro hlast
      simp only
      omega
    · intro hmid
      omega
    · simp only
      by_cases hempty : m.history.eraseIdx m.readIndex.toNat = []
      · right
        refine ⟨hempty, ?_⟩
        have : ((m.history.eraseIdx m.readIndex.toNat).length : ℤ) = 0 := by
          rw [hempty]; rfl
        omega
      · left
        have hpos : 0 < (m.history.eraseIdx m.readIndex.toNat).length :=
          List.length_pos.mpr hempty
        constructor <;> omega
  · rw [if_neg hend]
    refine ⟨rfl, by simpa using hlen, ?_, ?_, ?_⟩
    · intro hlast
      omega
    · intro hmid
      rfl
    · simp only
      left
      constructor <;> omega

/-- A machine in `STATE_REMOVE` with three history entries and the
read cursor on the last one. -/
def removeAtLast : Mach :=
  { initMach with state := STATE_REMOVE, history := [5, 6, 7],
                  readIndex := 2 }

/-- Witness for the single-delete theorem: deleting the last of three
entries moves `readIndex` from 2 to 1 and keeps it in bounds. -/
theorem remove_confirm_adjusts_readIndex_witness :
    (leftButtonPressed removeAtLast).state = STATE_HISTORY ∧
    ((leftButtonPressed removeAtLast).history.length : ℤ) = 2 ∧
    (leftButtonPressed removeAtLast).readIndex = 1 := by
  have h := remove_confirm_adjusts_readIndex removeAtLast rfl
    (by norm_num [removeAtLast]) (by norm_num [removeAtLast])
  refine ⟨h.1, by simpa [removeAtLast] using h.2.1, ?_⟩
  have := h.2.2.1 (by norm_num [removeAtLast])
  simpa [removeAtLast] using this

/-- The both-press control-cycle trace in which both buttons are
pressed in the same cycle and released in the same cycle:
`(millis, left raw read, right raw read)` per cycle. -/
def traceBothSimultaneous : List (ℕ × Bool × Bool) :=
  [(100, false, false), (200, true, true), (300, false, false)]

/-- The both-press trace in which the two channels press and release at
different times, so each channel's debounce settles independently:
left pressed at 200 ms, right at 240 ms, right released at 400 ms, left
at 600 ms. -/
def traceBothStaggered : List (ℕ × Bool × Bool) :=
  [(100, false, false), (200, true, false), (240, true, true),
   (400, true, false), (600, false, false)]

/-- C7: both both-press traces produce exactly one
`bothReleased` event — in particular no single-channel short-press
event is emitted for either button. -/
theorem both_press_single_event :
    (runTrace traceBothSimultaneous initMach).2 = [BEvent.bothReleased] ∧
    (runTrace traceBothStaggered initMach).2 = [BEvent.bothReleased] := by
  refine ⟨by decide, by decide⟩

/-- The debounce-timer update touches neither `buttonState` nor
`buttonHoldTime`. -/
theorem debouncePhase_fields (now : ℕ) (readL readR : Bool) (index : ℕ)
    (m : Mach) :
    (debouncePhase now readL readR index m).buttonState = m.buttonState ∧
    (debouncePhase now readL readR index m).buttonHoldTime =
      m.buttonHoldTime := by
  unfold debouncePhase
  dsimp only
  split_ifs <;> exact ⟨rfl, rfl⟩

/-- `rightButtonHold` never touches `buttonHoldTime`. -/
theorem rightButtonHold_fields (m : Mach) :
    (rightButtonHold m).buttonHoldTime = m.buttonHoldTime := by
  unfold rightButtonHold
  split_ifs <;> rfl

/-- The hold check keeps `buttonHoldTime`, leaves `buttonState` alone
or clears it, always clears it once the hold ceiling has passed, and
only ever emits hold events. -/
theorem holdPhase_fields (now : ℕ) (m : Mach) :
    (holdPhase now m).1.buttonHoldTime = m.buttonHoldTime ∧
    ((holdPhase now m).1.buttonState = m.buttonState ∨
      (holdPhase now m).1.buttonState = NO_BUTTON_PRESSED) ∧
    (BUTTON_HOLD_TIME < now - m.buttonHoldTime →
      (holdPhase now m).1.buttonState = NO_BUTTON_PRESSED) ∧
    (∀ e ∈ (holdPhase now m).2,
      e = BEvent.holdMenu ∨ e = BEvent.holdRight) := by
  unfold holdPhase
  split_ifs with h1 h2 h3 <;>
    simp_all [rightButtonHold_fields m]

set_option maxHeartbeats 2000000 in
/-- A settle step of the left-button loop iteration running with a
cleared gesture emits nothing, never arms `RIGHT_BUTTON_PRESSED`, and
arms `BOTH_BUTTONS_PRESSED` only when both raw reads are high. -/
theorem settlePhase_cleared (now : ℕ) (readL readR : Bool) (m : Mach)
    (hb : m.buttonState = NO_BUTTON_PRESSED) :
    (settlePhase now readL readR 0 m).2 = [] ∧
    (settlePhase now readL readR 0 m).1.buttonState ≠
      RIGHT_BUTTON_PRESSED ∧
    ((settlePhase now readL readR 0 m).1.buttonState =
        BOTH_BUTTONS_PRESSED → readR = true ∧ readL = true) := by
  unfold settlePhase
  dsimp only
  split_ifs <;> simp_all [NO_BUTTON_PRESSED, BOTH_BUTTONS_PRESSED,
    RIGHT_BUTTON_PRESSED, LEFT_BUTTON_PRESSED]

set_option maxHeartbeats 2000000 in
/-- A settle step of the right-button loop iteration emits nothing
when the active gesture is not `RIGHT_BUTTON_PRESSED` and a
`BOTH_BUTTONS_PRESSED` gesture can only coexist with both raw reads
high. -/
theorem settlePhase_one_silent (now : ℕ) (readL readR : Bool) (m : Mach)
    (hb2 : m.buttonState ≠ RIGHT_BUTTON_PRESSED)
    (hb3 : m.buttonState = BOTH_BUTTONS_PRESSED →
      readR = true ∧ readL = true) :
    (settlePhase now readL readR 1 m).2 = [] := by
  unfold settlePhase
  dsimp only
  split_ifs <;> simp_all

/-- C6: in any control cycle entered after the hold ceiling has passed
(`now - buttonHoldTime > BUTTON_HOLD_TIME`) — in particular the cycle
that processes the release of a button held at least
`BUTTON_HOLD_TIME` — `pollButtons` emits no short-press and no
both-released event: the pending gesture is consumed by the hold
check, which clears `buttonState` before any release logic runs. -/
theorem pollButtons_hold_no_short (m : Mach) (now : ℕ)
    (readL readR : Bool)
    (h : BUTTON_HOLD_TIME < now - m.buttonHoldTime) :
    ∀ e ∈ (pollButtons now readL readR m).2,
      e = BEvent.holdMenu ∨ e = BEvent.holdRight := by
  have hdb0 := debouncePhase_fields now readL readR 0 m
  have hh0 := holdPhase_fields now (debouncePhase now readL readR 0 m)
  have hcond0 : BUTTON_HOLD_TIME <
      now - (debouncePhase now readL readR 0 m).buttonHoldTime := by
    rw [hdb0.2]; exact h
  have hb0 := hh0.2.2.1 hcond0
  have hs0 := settlePhase_cleared now readL readR
    (holdPhase now (debouncePhase now readL readR 0 m)).1 hb0
  have hdb1 := debouncePhase_fields now readL readR 1
    (settlePhase now readL readR 0
      (holdPhase now (debouncePhase now readL readR 0 m)).1).1
  have hh1 := holdPhase_fields now
    (debouncePhase now readL readR 1
      (settlePhase now readL readR 0
        (holdPhase now (debouncePhase now readL readR 0 m)).1).1)
  have hq1 : (settlePhase now readL readR 1
      (holdPhase now (debouncePhase now readL readR 1
        (settlePhase now readL readR 0
          (holdPhase now (debouncePhase now readL readR 0 m)).1).1)).1).2
      = [] := by
    apply settlePhase_one_silent
    · rcases hh1.2.1 with hsame | hzero
      · rw [hsame, hdb1.1]; exact hs0.2.1
      · rw [hzero]; norm_num [NO_BUTTON_PRESSED, RIGHT_BUTTON_PRESSED]
    · intro hboth
      rcases hh1.2.1 with hsame | hzero
      · rw [hsame, hdb1.1] at hboth; exact hs0.2.2 hboth
      · rw [hzero] at hboth
        exact absurd hboth (by norm_num [NO_BUTTON_PRESSED,
          BOTH_BUTTONS_PRESSED])
  have hev : (pollButtons now readL readR m).2 =
      ((holdPhase now (debouncePhase now readL readR 0 m)).2 ++
        (settlePhase now readL readR 0
          (holdPhase now (debouncePhase now readL readR 0 m)).1).2) ++
      ((holdPhase now (debouncePhase now readL readR 1
        (settlePhase now readL readR 0
          (holdPhase now (debouncePhase now readL readR 0 m)).1).1)).2 ++
       (settlePhase now readL readR 1
        (holdPhase now (debouncePhase now readL readR 1
          (settlePhase now readL readR 0
            (holdPhase now (debouncePhase now readL readR 0 m)).1).1)).1).2)
      := rfl
  rw [hev, hs0.1, hq1]
  intro e he
  simp only [List.append_nil, List.mem_append] at he
  rcases he with he | he
  · exact hh0.2.2.2 e he
  · exact hh1.2.2.2 e he

/-- A machine holding a both-press gesture in the history view, with
the gesture armed at time 0. -/
def heldGestureMach : Mach :=
  { initMach with state := STATE_HISTORY, readIndex := 0,
                  buttonState := BOTH_BUTTONS_PRESSED,
                  buttonHoldTime := 0 }

/-- Witness for the hold-consumption theorem: at 1000 ms the hold
ceiling has long passed, and the cycle emits only hold events. -/
theorem pollButtons_hold_no_short_witness :
    BUTTON_HOLD_TIME < 1000 - heldGestureMach.buttonHoldTime ∧
    (∀ e ∈ (pollButtons 1000 true true heldGestureMach).2,
      e = BEvent.holdMenu ∨ e = BEvent.holdRight) :=
  And.intro (by decide)
    (pollButtons_hold_no_short heldGestureMach 1000 true true (by decide))

end Speedometer
